import Mathlib

/-!
Verification of the OtchotBot administrative console core (src/admin.py):
role registry, session state machine for the multi-step admin flows, and
the broadcast dispatch loop.  Python sets become `Finset Int`, the mutable
module-level state becomes explicit state passing, and fallible
computations (a Python expression that raises) become `Option`.
-/

namespace OtchotBot

/-! ## String helpers mirroring the Python primitives used by the handlers -/

/-- Model of Python `str.strip()`: remove leading and trailing whitespace. -/
def pyStrip (s : String) : String :=
  ⟨(((s.toList.dropWhile Char.isWhitespace).reverse.dropWhile Char.isWhitespace).reverse)⟩

/-- Positional value of a list of decimal digit characters. -/
def digitsToNat (ds : List Char) : Nat :=
  ds.foldl (fun acc c => acc * 10 + (c.toNat - 48)) 0

/-- Digit-run parser for Python `int()`: a leading digit, then digits in
which a single underscore may separate two digits (Python 3 literal rule). -/
def intDigitsGo (acc : Nat) : List Char → Option Nat
  | [] => some acc
  | '_' :: c :: cs =>
      if c.isDigit then intDigitsGo (acc * 10 + (c.toNat - 48)) cs else none
  | '_' :: [] => none
  | c :: cs =>
      if c.isDigit then intDigitsGo (acc * 10 + (c.toNat - 48)) cs else none

/-- Parse a non-empty digit sequence (with Python underscore rules). -/
def intDigits : List Char → Option Nat
  | [] => none
  | c :: cs => if c.isDigit then intDigitsGo (c.toNat - 48) cs else none

/-- Model of Python `int(s)`: surrounding whitespace is ignored, an optional
sign precedes the digits; any other shape raises `ValueError` (`none`). -/
def pyInt (s : String) : Option Int :=
  match (pyStrip s).toList with
  | '-' :: rest => (intDigits rest).map (fun n => -(n : Int))
  | '+' :: rest => (intDigits rest).map (fun n => (n : Int))
  | rest => (intDigits rest).map (fun n => (n : Int))

/-! ## RoleRegistry (src/admin.py lines 79-120)

`ADMIN_ID` and `HELPER_ID` come from the external `config` module, so they
are carried as an abstract configuration.  The two module-level mutable
sets become a state record threaded through the operations. -/

structure Config where
  adminId : Int
  helperId : Int
deriving DecidableEq, Repr

structure Roles where
  additionalAdmins : Finset Int
  approvers : Finset Int
deriving DecidableEq

/-- `is_admin`: `user_id == ADMIN_ID or user_id in ADDITIONAL_ADMINS`. -/
def is_admin (cfg : Config) (r : Roles) (uid : Int) : Bool :=
  uid == cfg.adminId || decide (uid ∈ r.additionalAdmins)

/-- `is_approver`: helper id, additional approver, or any admin. -/
def is_approver (cfg : Config) (r : Roles) (uid : Int) : Bool :=
  uid == cfg.helperId || decide (uid ∈ r.approvers) || is_admin cfg r uid

/-- `add_admin`: inserts unless already present or the primary admin. -/
def add_admin (cfg : Config) (r : Roles) (uid : Int) : Bool × Roles :=
  if uid ∉ r.additionalAdmins ∧ uid ≠ cfg.adminId then
    (true, { r with additionalAdmins := insert uid r.additionalAdmins })
  else (false, r)

/-- `remove_admin`: removes when present (no primary-admin check here;
the primary is protected only by never being inserted). -/
def remove_admin (r : Roles) (uid : Int) : Bool × Roles :=
  if uid ∈ r.additionalAdmins then
    (true, { r with additionalAdmins := r.additionalAdmins.erase uid })
  else (false, r)

/-- `add_approver`: inserts unless already present, the helper, or an admin. -/
def add_approver (cfg : Config) (r : Roles) (uid : Int) : Bool × Roles :=
  if uid ∉ r.approvers ∧ uid ≠ cfg.helperId ∧ is_admin cfg r uid = false then
    (true, { r with approvers := insert uid r.approvers })
  else (false, r)

/-- `remove_approver`: removes when present. -/
def remove_approver (r : Roles) (uid : Int) : Bool × Roles :=
  if uid ∈ r.approvers then
    (true, { r with approvers := r.approvers.erase uid })
  else (false, r)

/-- The initial role state: both module-level sets start empty. -/
def roles0 : Roles := ⟨∅, ∅⟩

/-- Role states reachable from the initial configuration by any sequence of
registry operations. -/
inductive Reachable (cfg : Config) : Roles → Prop
  | init : Reachable cfg roles0
  | addAdmin (s : Roles) (uid : Int) :
      Reachable cfg s → Reachable cfg (add_admin cfg s uid).2
  | removeAdmin (s : Roles) (uid : Int) :
      Reachable cfg s → Reachable cfg (remove_admin s uid).2
  | addApprover (s : Roles) (uid : Int) :
      Reachable cfg s → Reachable cfg (add_approver cfg s uid).2
  | removeApprover (s : Roles) (uid : Int) :
      Reachable cfg s → Reachable cfg (remove_approver s uid).2

/-- Core reachability invariant: the primary admin never enters
`ADDITIONAL_ADMINS` and the helper never enters `APPROVERS`. -/
theorem reachable_primaries_not_in_sets (cfg : Config) (s : Roles)
    (h : Reachable cfg s) :
    cfg.adminId ∉ s.additionalAdmins ∧ cfg.helperId ∉ s.approvers := by
  induction h with
  | init => simp [roles0]
  | addAdmin s uid _ ih =>
      unfold add_admin
      split
      · next hc =>
          refine ⟨?_, ih.2⟩
          simp only [Finset.mem_insert]
          rintro (rfl | hmem)
          · exact hc.2 rfl
          · exact ih.1 hmem
      · exact ih
  | removeAdmin s uid _ ih =>
      unfold remove_admin
      split
      · exact ⟨fun hmem => ih.1 (Finset.mem_of_mem_erase hmem), ih.2⟩
      · exact ih
  | addApprover s uid _ ih =>
      unfold add_approver
      split
      · next hc =>
          refine ⟨ih.1, ?_⟩
          simp only [Finset.mem_insert]
          rintro (rfl | hmem)
          · exact hc.2.1 rfl
          · exact ih.2 hmem
      · exact ih
  | removeApprover s uid _ ih =>
      unfold remove_approver
      split
      · exact ⟨ih.1, fun hmem => ih.2 (Finset.mem_of_mem_erase hmem)⟩
      · exact ih

/-! ## Sessions (aiogram `FSMContext`: a per-operator state plus a data map)

The `AdminStates` group gives the step identifiers; `state.update_data`
writes individual keys and `state.clear()` resets both the step and the
data.  The data dict is modelled as a record of optional fields, one per
key the handlers write. -/

inductive Step
  | waiting_for_group_link
  | waiting_for_group_name
  | waiting_for_group_sheet_selection
  | waiting_for_group_id_to_delete
  | waiting_for_sheet_name
  | waiting_for_google_sheet_url
  | waiting_for_google_sheet_worksheet_name
  | waiting_for_new_password
  | waiting_for_password_confirmation
  | waiting_for_new_admin_id
  | waiting_for_admin_name
  | waiting_for_admin_delete_confirmation
  | waiting_for_new_approver_id
  | waiting_for_approver_name
  | waiting_for_approver_delete_confirmation
  | waiting_for_user_search
  | waiting_for_broadcast_message
  | waiting_for_broadcast_confirmation
deriving DecidableEq, Repr

structure SessData where
  new_approver_id : Option Int := none
  temp_group_id : Option Int := none
  temp_topic_id : Option Nat := none
  temp_group_name : Option String := none
  temp_sheet_name : Option String := none
  temp_spreadsheet_id : Option String := none
  new_admin_id : Option Int := none
  new_password : Option String := none
  broadcast_message : Option String := none
deriving DecidableEq, Repr

structure Session where
  step : Option Step := none
  data : SessData := {}
deriving DecidableEq, Repr

/-- `state.clear()`: no active step, empty data. -/
def clearedSession : Session := {}

/-! ## External-store records consumed by the handlers

`database.py` is not part of the source tree; the records below carry the
tuple fields the handlers destructure, and the store operations used in
commit actions are modelled from the spec where marked. -/

structure Group where
  db_id : Int
  group_id : Int
  name : String
  topic_id : Option Nat
  sheet_id : Int
  sheet_name : String
deriving DecidableEq, Repr

structure Sheet where
  id : Int
  name : String
  spreadsheet_id : String
  worksheet_name : String
  is_active : Bool
deriving DecidableEq, Repr

/-- The mutable world a handler can read and commit to: the role sets, the
stored access code, and the group / spreadsheet-target records. -/
structure World where
  cfg : Config
  roles : Roles
  password : String
  groups : List Group
  sheets : List Sheet
deriving DecidableEq

/-- External effects that are out of the handlers' control: whether the
spreadsheet service reaches a worksheet (`get_worksheet` truthy, falsy, or
raising). -/
inductive GsProbe
  | ok
  | notFound
  | raises
deriving DecidableEq, Repr

/-- What one handler invocation did, mirroring the code paths: the
authorization denial, a validator rejection (re-prompt), an accepted value
with a step advance, a terminal commit (with its success flag), an accepted
value that cannot advance (no spreadsheet targets exist), the silent
`group_id == 0` path, the explicit cancel, or no matching handler. -/
inductive Outcome
  | denied
  | rejected
  | advanced
  | committed (success : Bool)
  | blocked
  | ignored
  | cancelled
  | noHandler
deriving DecidableEq, Repr

structure StepResult where
  session : Session
  world : World
  outcome : Outcome
deriving DecidableEq

/-! ## Group-locator parsing (`process_group_link`, src/admin.py 1090-1102)

Three `re.match` patterns, tried in order.  `re.match` anchors at the
start only, so trailing text after a link pattern is allowed; the bare
numeric pattern is anchored on both ends. -/

/-- The literal part of the channel-link patterns. -/
def tmeChars : List Char := "https://t.me/c/".toList

/-- `re.match(r"https://t\.me/c/(\d+)/(\d+)", link)`: the two digit groups
when the pattern matches at the start of the input. -/
def matchChannelTopic (cs : List Char) : Option (List Char × List Char) :=
  if tmeChars.isPrefixOf cs then
    let rest := cs.drop tmeChars.length
    let d1 := rest.takeWhile Char.isDigit
    if d1 = [] then none
    else
      match rest.drop d1.length with
      | '/' :: rest2 =>
          let d2 := rest2.takeWhile Char.isDigit
          if d2 = [] then none else some (d1, d2)
      | _ => none
  else none

/-- `re.match(r"https://t\.me/c/(\d+)", link)`: the digit group when the
pattern matches at the start of the input. -/
def matchChannelNoTopic (cs : List Char) : Option (List Char) :=
  if tmeChars.isPrefixOf cs then
    let d1 := (cs.drop tmeChars.length).takeWhile Char.isDigit
    if d1 = [] then none else some d1
  else none

/-- `re.match(r"^-?\d+$", link)`: an optional minus then digits, spanning
the whole input. -/
def matchNumericId (cs : List Char) : Option Int :=
  match cs with
  | '-' :: ds =>
      if ds ≠ [] ∧ ds.all Char.isDigit then some (-(digitsToNat ds : Int)) else none
  | ds =>
      if ds ≠ [] ∧ ds.all Char.isDigit then some ((digitsToNat ds : Int)) else none

/-- `int("-100" + digits)`: the channel-link group id. -/
def linkGroupId (d1 : List Char) : Int :=
  -((100 * 10 ^ d1.length + digitsToNat d1 : Nat) : Int)

inductive LinkParse
  | topicLink (gid : Int) (topic : Nat)
  | plainLink (gid : Int)
  | numericId (v : Int)
  | noMatch
deriving DecidableEq, Repr

/-- The regex cascade of `process_group_link`, in source order. -/
def parseGroupLink (link : String) : LinkParse :=
  let cs := link.toList
  match matchChannelTopic cs with
  | some (d1, d2) => .topicLink (linkGroupId d1) (digitsToNat d2)
  | none =>
    match matchChannelNoTopic cs with
    | some d1 => .plainLink (linkGroupId d1)
    | none =>
      match matchNumericId cs with
      | some v => .numericId v
      | none => .noMatch

/-! ## Message-step handlers

Each `@admin_router.message(AdminStates...)` handler becomes a pure
transition on `(World, Session)`.  Replies sent back to the operator are
abstracted into the `Outcome`; every handler below follows its Python
body line by line. -/

/-- src/admin.py 792-849: the add-approver id step. -/
def process_new_approver_id (w : World) (s : Session) (sender : Int)
    (text : String) : StepResult :=
  if is_admin w.cfg w.roles sender = false then
    ⟨clearedSession, w, .denied⟩
  else
    match pyInt text with
    | none => ⟨s, w, .rejected⟩
    | some nid =>
      if nid = w.cfg.helperId then ⟨s, w, .rejected⟩
      else if is_admin w.cfg w.roles nid then ⟨s, w, .rejected⟩
      else if nid ∈ w.roles.approvers then ⟨s, w, .rejected⟩
      else
        ⟨⟨some .waiting_for_approver_name,
          { s.data with new_approver_id := some nid }⟩, w, .advanced⟩

/-- src/admin.py 851-897: the add-approver display-name step (terminal:
commits through `add_approver`).  When the session data lacks the id key,
Python would pass `None` to `add_approver`, which inserts it and reports
success; a `None` member is invisible to every integer identity query, so
it is modelled as a successful commit that leaves the integer set as is. -/
def process_approver_name (w : World) (s : Session) (sender : Int)
    (text : String) : StepResult :=
  if is_admin w.cfg w.roles sender = false then
    ⟨clearedSession, w, .denied⟩
  else
    let nm := pyStrip text
    if nm = "" ∨ nm.length < 2 then ⟨s, w, .rejected⟩
    else
      match s.data.new_approver_id with
      | none => ⟨clearedSession, w, .committed true⟩
      | some nid =>
          let r := add_approver w.cfg w.roles nid
          ⟨clearedSession, { w with roles := r.2 }, .committed r.1⟩

/-- src/admin.py 931-990: the remove-approver id step (terminal). -/
def process_approver_delete (w : World) (s : Session) (sender : Int)
    (text : String) : StepResult :=
  if is_admin w.cfg w.roles sender = false then
    ⟨clearedSession, w, .denied⟩
  else
    match pyInt text with
    | none => ⟨s, w, .rejected⟩
    | some rid =>
      if rid = w.cfg.helperId then ⟨s, w, .rejected⟩
      else if rid ∉ w.roles.approvers then ⟨s, w, .rejected⟩
      else
        let r := remove_approver w.roles rid
        ⟨clearedSession, { w with roles := r.2 }, .committed r.1⟩

/-- src/admin.py 1078-1127: the add-work-group locator step. -/
def process_group_link (w : World) (s : Session) (sender : Int)
    (text : String) : StepResult :=
  if is_admin w.cfg w.roles sender = false then
    ⟨clearedSession, w, .denied⟩
  else
    let link := pyStrip text
    let advanceWith := fun (gid : Int) (topic : Option Nat) =>
      if gid ≠ 0 then
        ⟨⟨some Step.waiting_for_group_name,
          { s.data with temp_group_id := some gid, temp_topic_id := topic }⟩,
         w, Outcome.advanced⟩
      else (⟨s, w, Outcome.ignored⟩ : StepResult)
    match parseGroupLink link with
    | .topicLink gid topic => advanceWith gid (some topic)
    | .plainLink gid => advanceWith gid none
    | .numericId v => advanceWith v none
    | .noMatch => ⟨s, w, .rejected⟩

/-- src/admin.py 1129-1167: the add-work-group name step.  With no
spreadsheet targets on record the accepted name is stored but the step
does not advance. -/
def process_group_name (w : World) (s : Session) (sender : Int)
    (text : String) : StepResult :=
  if is_admin w.cfg w.roles sender = false then
    ⟨clearedSession, w, .denied⟩
  else
    let nm := pyStrip text
    if nm = "" ∨ nm.length < 3 then ⟨s, w, .rejected⟩
    else
      let s1 : Session := ⟨s.step, { s.data with temp_group_name := some nm }⟩
      if w.sheets = [] then ⟨s1, w, .blocked⟩
      else
        ⟨⟨some .waiting_for_group_sheet_selection, s1.data⟩, w, .advanced⟩

/-- src/admin.py 1250-1297: the delete-work-group id step (terminal).
`get_telegram_group_by_id` / `delete_telegram_group` are store calls;
modelled from the spec (`Store.deleteGroup(id)`): lookup by group id,
deletion succeeds for a record that exists. -/
def process_group_delete (w : World) (s : Session) (sender : Int)
    (text : String) : StepResult :=
  if is_admin w.cfg w.roles sender = false then
    ⟨clearedSession, w, .denied⟩
  else
    match pyInt text with
    | none => ⟨s, w, .rejected⟩
    | some gid =>
      match w.groups.find? (fun g => g.group_id == gid) with
      | none => ⟨s, w, .rejected⟩
      | some _ =>
          ⟨clearedSession,
           { w with groups := w.groups.filter (fun g => g.group_id != gid) },
           .committed true⟩

/-- The literal part of the spreadsheet-locator pattern. -/
def gsheetChars : List Char := "https://docs.google.com/spreadsheets/d/".toList

/-- The character class `[a-zA-Z0-9_-]`. -/
def idChar (c : Char) : Bool := c.isAlphanum || c == '_' || c == '-'

/-- `re.search(r"https://docs\.google\.com/spreadsheets/d/([a-zA-Z0-9_-]+)", url)`:
scan left to right for the first position where the literal is followed by
at least one id character; the capture is the maximal id-character run. -/
def findSpreadsheetId : List Char → Option (List Char)
  | [] => none
  | l@(_ :: rest) =>
    if gsheetChars.isPrefixOf l then
      let d := (l.drop gsheetChars.length).takeWhile idChar
      if d = [] then findSpreadsheetId rest else some d
    else findSpreadsheetId rest

/-- src/admin.py 1368-1398: the add-spreadsheet-target name step. -/
def process_sheet_name (w : World) (s : Session) (sender : Int)
    (text : String) : StepResult :=
  if is_admin w.cfg w.roles sender = false then
    ⟨clearedSession, w, .denied⟩
  else
    let nm := pyStrip text
    if nm = "" ∨ nm.length < 3 then ⟨s, w, .rejected⟩
    else
      ⟨⟨some .waiting_for_google_sheet_url,
        { s.data with temp_sheet_name := some nm }⟩, w, .advanced⟩

/-- src/admin.py 1400-1433: the spreadsheet URL step. -/
def process_google_sheet_url (w : World) (s : Session) (sender : Int)
    (text : String) : StepResult :=
  if is_admin w.cfg w.roles sender = false then
    ⟨clearedSession, w, .denied⟩
  else
    let url := pyStrip text
    match findSpreadsheetId url.toList with
    | some d =>
        ⟨⟨some .waiting_for_google_sheet_worksheet_name,
          { s.data with temp_spreadsheet_id := some ⟨d⟩ }⟩, w, .advanced⟩
    | none => ⟨s, w, .rejected⟩

/-- src/admin.py 1435-1495: the worksheet-name step (terminal).  The
spreadsheet-service probe (`get_worksheet`) is external, carried as the
`probe` oracle; `add_google_sheet` is a store call, modelled from the
spec (`Store.addSpreadsheetTarget`, fails on an already-existing record).
A missing session key makes the client raise, which the handler's `except`
turns into a failed commit. -/
def process_google_sheet_worksheet_name (probe : GsProbe) (w : World)
    (s : Session) (sender : Int) (text : String) : StepResult :=
  if is_admin w.cfg w.roles sender = false then
    ⟨clearedSession, w, .denied⟩
  else
    let wsn := pyStrip text
    if wsn = "" then ⟨s, w, .rejected⟩
    else
      match s.data.temp_sheet_name, s.data.temp_spreadsheet_id with
      | some nm, some sid =>
        match probe with
        | .ok =>
            if w.sheets.any (fun sh => sh.spreadsheet_id == sid && sh.worksheet_name == wsn) then
              ⟨clearedSession, w, .committed false⟩
            else
              ⟨clearedSession,
               { w with sheets :=
                  w.sheets ++ [⟨((w.sheets.length : Int) + 1), nm, sid, wsn, true⟩] },
               .committed true⟩
        | .notFound => ⟨clearedSession, w, .committed false⟩
        | .raises => ⟨clearedSession, w, .committed false⟩
      | _, _ => ⟨clearedSession, w, .committed false⟩

/-- src/admin.py 1723-1771: the add-administrator id step.  Only the
primary admin passes the gate (`message.from_user.id != ADMIN_ID`). -/
def process_new_admin_id (w : World) (s : Session) (sender : Int)
    (text : String) : StepResult :=
  if sender ≠ w.cfg.adminId then
    ⟨clearedSession, w, .denied⟩
  else
    match pyInt text with
    | none => ⟨s, w, .rejected⟩
    | some nid =>
      if nid = w.cfg.adminId then ⟨s, w, .rejected⟩
      else if nid ∈ w.roles.additionalAdmins then ⟨s, w, .rejected⟩
      else
        ⟨⟨some .waiting_for_admin_name,
          { s.data with new_admin_id := some nid }⟩, w, .advanced⟩

/-- src/admin.py 1773-1818: the add-administrator name step (terminal:
commits through `add_admin`).  The missing-key corner is treated as in
`process_approver_name`. -/
def process_admin_name (w : World) (s : Session) (sender : Int)
    (text : String) : StepResult :=
  if sender ≠ w.cfg.adminId then
    ⟨clearedSession, w, .denied⟩
  else
    let nm := pyStrip text
    if nm = "" ∨ nm.length < 2 then ⟨s, w, .rejected⟩
    else
      match s.data.new_admin_id with
      | none => ⟨clearedSession, w, .committed true⟩
      | some nid =>
          let r := add_admin w.cfg w.roles nid
          ⟨clearedSession, { w with roles := r.2 }, .committed r.1⟩

/-- src/admin.py 1852-1911: the remove-administrator id step (terminal). -/
def process_admin_delete (w : World) (s : Session) (sender : Int)
    (text : String) : StepResult :=
  if sender ≠ w.cfg.adminId then
    ⟨clearedSession, w, .denied⟩
  else
    match pyInt text with
    | none => ⟨s, w, .rejected⟩
    | some rid =>
      if rid = w.cfg.adminId then ⟨s, w, .rejected⟩
      else if rid ∉ w.roles.additionalAdmins then ⟨s, w, .rejected⟩
      else
        let r := remove_admin w.roles rid
        ⟨clearedSession, { w with roles := r.2 }, .committed r.1⟩

/-- src/admin.py 2002-2041: the new-access-code step.
`get_current_password` is a store read; modelled from the spec
(`Store.getAccessCode`) as the world's stored code. -/
def process_new_password (w : World) (s : Session) (sender : Int)
    (text : String) : StepResult :=
  if is_admin w.cfg w.roles sender = false then
    ⟨clearedSession, w, .denied⟩
  else
    let np := pyStrip text
    if np = "" ∨ np.length < 4 then ⟨s, w, .rejected⟩
    else if np = w.password then ⟨s, w, .rejected⟩
    else
      ⟨⟨some .waiting_for_password_confirmation,
        { s.data with new_password := some np }⟩, w, .advanced⟩

/-- src/admin.py 2043-2082: the access-code confirmation step (terminal).
`update_password` is a store write; modelled from the spec
(`Store.setAccessCode`) as an always-successful update.  A missing
session key compares unequal to any string, hence the mismatch path. -/
def process_password_confirmation (w : World) (s : Session) (sender : Int)
    (text : String) : StepResult :=
  if is_admin w.cfg w.roles sender = false then
    ⟨clearedSession, w, .denied⟩
  else
    let conf := pyStrip text
    match s.data.new_password with
    | none => ⟨s, w, .rejected⟩
    | some np =>
      if conf ≠ np then ⟨s, w, .rejected⟩
      else ⟨clearedSession, { w with password := np }, .committed true⟩

/-- src/admin.py 2450-2491: the broadcast message-body step. -/
def process_broadcast_message (w : World) (s : Session) (sender : Int)
    (text : String) : StepResult :=
  if is_admin w.cfg w.roles sender = false then
    ⟨clearedSession, w, .denied⟩
  else
    let msg := pyStrip text
    if msg = "" ∨ msg.length < 5 then ⟨s, w, .rejected⟩
    else
      ⟨⟨some .waiting_for_broadcast_confirmation,
        { s.data with broadcast_message := some msg }⟩, w, .advanced⟩

/-- src/admin.py 2399-2420: the explicit cancel action.  It clears the
session before anything else, runs no commit, and performs no role
check at all. -/
def cancel_admin_action_handler (w : World) (s : Session) (sender : Int) :
    StepResult :=
  ⟨clearedSession, w, .cancelled⟩

/-- Router dispatch for text messages: aiogram hands the update to the
handler whose `AdminStates` filter matches the session's current step.
Steps without a message handler (callback-driven selection and
confirmation steps, and `waiting_for_user_search`, which no handler
consumes) leave everything untouched. -/
def dispatchMessage (probe : GsProbe) (w : World) (s : Session)
    (sender : Int) (text : String) : StepResult :=
  match s.step with
  | some .waiting_for_group_link => process_group_link w s sender text
  | some .waiting_for_group_name => process_group_name w s sender text
  | some .waiting_for_group_id_to_delete => process_group_delete w s sender text
  | some .waiting_for_sheet_name => process_sheet_name w s sender text
  | some .waiting_for_google_sheet_url => process_google_sheet_url w s sender text
  | some .waiting_for_google_sheet_worksheet_name =>
      process_google_sheet_worksheet_name probe w s sender text
  | some .waiting_for_new_password => process_new_password w s sender text
  | some .waiting_for_password_confirmation =>
      process_password_confirmation w s sender text
  | some .waiting_for_new_admin_id => process_new_admin_id w s sender text
  | some .waiting_for_admin_name => process_admin_name w s sender text
  | some .waiting_for_admin_delete_confirmation =>
      process_admin_delete w s sender text
  | some .waiting_for_new_approver_id => process_new_approver_id w s sender text
  | some .waiting_for_approver_name => process_approver_name w s sender text
  | some .waiting_for_approver_delete_confirmation =>
      process_approver_delete w s sender text
  | some .waiting_for_broadcast_message => process_broadcast_message w s sender text
  | some .waiting_for_group_sheet_selection => ⟨s, w, .noHandler⟩
  | some .waiting_for_user_search => ⟨s, w, .noHandler⟩
  | some .waiting_for_broadcast_confirmation => ⟨s, w, .noHandler⟩
  | none => ⟨s, w, .noHandler⟩

/-! ## Broadcast dispatch (src/admin.py 2493-2566)

The loop in `confirm_broadcast` sends to every fetched user in order.
Delivery failures (`bot.send_message` raising) and progress-callback
failures (`edit_text` raising inside the inner `try`) are external, so
they are supplied as oracles indexed by the attempt position.  The final
success-percentage expression divides by `len(all_users)` with no guard;
that computation is therefore `Option`-valued, `none` being the
`ZeroDivisionError`. -/

structure BcAcc where
  sent : Nat
  errors : Nat
  progressAttempted : List Nat
  progressShown : List Nat
deriving DecidableEq, Repr

def bcAcc0 : BcAcc := ⟨0, 0, [], []⟩

/-- One iteration of the send loop at position `i`: on success increment
`sent_count` and, when it reaches a multiple of 10, attempt the progress
edit (its own failure is swallowed by the inner `except`); on failure
increment `error_count` and continue. -/
def bcIter (deliver progFail : Nat → Bool) (i : Nat) (acc : BcAcc) : BcAcc :=
  if deliver i then
    let sent := acc.sent + 1
    if sent % 10 = 0 then
      { acc with
        sent := sent
        progressAttempted := acc.progressAttempted ++ [i]
        progressShown :=
          if progFail i then acc.progressShown else acc.progressShown ++ [i] }
    else { acc with sent := sent }
  else { acc with errors := acc.errors + 1 }

/-- The `for user in all_users` loop, one visit per snapshot recipient. -/
def bcLoop (deliver progFail : Nat → Bool) :
    List Int → Nat → BcAcc → BcAcc
  | [], _, acc => acc
  | _ :: rest, i, acc =>
      bcLoop deliver progFail rest (i + 1) (bcIter deliver progFail i acc)

structure BroadcastReport where
  total : Nat
  sent : Nat
  errors : Nat
deriving DecidableEq, Repr

/-- The dispatch tail of `confirm_broadcast`: run the loop over the
snapshot, then build the final report whose success-percentage expression
`round((sent_count / len(all_users)) * 100, 1)` raises `ZeroDivisionError`
on an empty snapshot (the numeric value of the percentage is not needed by
any claim; only its definedness is modelled). -/
def confirm_broadcast_send (deliver progFail : Nat → Bool)
    (recipients : List Int) : Option BroadcastReport :=
  let acc := bcLoop deliver progFail recipients 0 bcAcc0
  if recipients.length = 0 then none
  else some ⟨recipients.length, acc.sent, acc.errors⟩

/-- Cadence specification used to characterise the progress updates the
loop actually attempts: an attempt happens at position `i` exactly when
delivery `i` succeeds and the success count it produces is a multiple of
10 (`sent0` counts the successes accumulated so far). -/
def attemptsSpec (deliver : Nat → Bool) : Nat → Nat → Nat → List Nat
  | _, _, 0 => []
  | sent0, i, n + 1 =>
    if deliver i then
      (if (sent0 + 1) % 10 = 0 then [i] else []) ++
        attemptsSpec deliver (sent0 + 1) (i + 1) n
    else attemptsSpec deliver sent0 (i + 1) n

/-- Feed a list of raw inputs one after the other through the router,
threading the world and session. -/
def applyInputs (probe : GsProbe) (sender : Int) :
    List String → World → Session → World × Session
  | [], w, s => (w, s)
  | t :: ts, w, s =>
      let r := dispatchMessage probe w s sender t
      applyInputs probe sender ts r.world r.session

/-! ## Concrete instances used by witnesses and counterexamples -/

def cfg0 : Config := ⟨1, 2⟩

def w0 : World := ⟨cfg0, roles0, "1234", [], []⟩

def sApproverId : Session := ⟨some .waiting_for_new_approver_id, {}⟩

def sGroupLink : Session := ⟨some .waiting_for_group_link, {}⟩

def sNewPassword : Session := ⟨some .waiting_for_new_password, {}⟩

def sPassConfirm : Session :=
  ⟨some .waiting_for_password_confirmation, { new_password := some "2025" }⟩

/-- A role state that an approver-then-admin call sequence reaches. -/
def sBad : Roles := (add_admin cfg0 (add_approver cfg0 roles0 5).2 5).2

def dEx : Nat → Bool := fun i => i != 1

def pFalse : Nat → Bool := fun _ => false

/-! ## Broadcast loop lemmas -/

theorem bcIter_sent_errors (d p : Nat → Bool) (i : Nat) (acc : BcAcc) :
    (bcIter d p i acc).sent + (bcIter d p i acc).errors
      = acc.sent + acc.errors + 1 := by
  unfold bcIter
  by_cases hd : d i
  · by_cases hs : (acc.sent + 1) % 10 = 0 <;> simp [hd, hs] <;> omega
  · simp [hd]; omega

theorem bcIter_sent_le (d p : Nat → Bool) (i : Nat) (acc : BcAcc) :
    (bcIter d p i acc).sent ≤ acc.sent + 1 := by
  unfold bcIter
  by_cases hd : d i
  · by_cases hs : (acc.sent + 1) % 10 = 0 <;> simp [hd, hs]
  · simp [hd]

theorem bcLoop_sent_errors (d p : Nat → Bool) :
    ∀ (l : List Int) (i : Nat) (acc : BcAcc),
      (bcLoop d p l i acc).sent + (bcLoop d p l i acc).errors
        = acc.sent + acc.errors + l.length := by
  intro l
  induction l with
  | nil => intro i acc; simp [bcLoop]
  | cons a l ih =>
      intro i acc
      show (bcLoop d p l (i + 1) (bcIter d p i acc)).sent
            + (bcLoop d p l (i + 1) (bcIter d p i acc)).errors
          = acc.sent + acc.errors + (a :: l).length
      rw [ih]
      have h := bcIter_sent_errors d p i acc
      simp only [List.length_cons]
      omega

theorem bcLoop_sent_le (d p : Nat → Bool) :
    ∀ (l : List Int) (i : Nat) (acc : BcAcc),
      (bcLoop d p l i acc).sent ≤ acc.sent + l.length := by
  intro l
  induction l with
  | nil => intro i acc; simp [bcLoop]
  | cons a l ih =>
      intro i acc
      show (bcLoop d p l (i + 1) (bcIter d p i acc)).sent ≤ _
      calc (bcLoop d p l (i + 1) (bcIter d p i acc)).sent
          ≤ (bcIter d p i acc).sent + l.length := ih (i + 1) _
        _ ≤ acc.sent + 1 + l.length := by
            have := bcIter_sent_le d p i acc; omega
        _ = acc.sent + (a :: l).length := by simp; omega

theorem bcLoop_attempted (d p : Nat → Bool) :
    ∀ (l : List Int) (i : Nat) (acc : BcAcc),
      (bcLoop d p l i acc).progressAttempted
        = acc.progressAttempted ++ attemptsSpec d acc.sent i l.length := by
  intro l
  induction l with
  | nil => intro i acc; simp [bcLoop, attemptsSpec]
  | cons a l ih =>
      intro i acc
      show (bcLoop d p l (i + 1) (bcIter d p i acc)).progressAttempted = _
      rw [ih]
      unfold bcIter
      by_cases hd : d i
      · by_cases hs : (acc.sent + 1) % 10 = 0
        · simp [hd, hs, attemptsSpec, List.append_assoc]
        · simp [hd, hs, attemptsSpec]
      · simp [hd, attemptsSpec]

theorem bcLoop_indep (d p q : Nat → Bool) :
    ∀ (l : List Int) (i : Nat) (acc1 acc2 : BcAcc),
      acc1.sent = acc2.sent → acc1.errors = acc2.errors →
      acc1.progressAttempted = acc2.progressAttempted →
      (bcLoop d p l i acc1).sent = (bcLoop d q l i acc2).sent ∧
      (bcLoop d p l i acc1).errors = (bcLoop d q l i acc2).errors ∧
      (bcLoop d p l i acc1).progressAttempted
        = (bcLoop d q l i acc2).progressAttempted := by
  intro l
  induction l with
  | nil => intro i acc1 acc2 h1 h2 h3; exact ⟨h1, h2, h3⟩
  | cons a l ih =>
      intro i acc1 acc2 h1 h2 h3
      obtain ⟨s1, e1, at1, sh1⟩ := acc1
      obtain ⟨s2, e2, at2, sh2⟩ := acc2
      dsimp only at h1 h2 h3
      subst h1; subst h2; subst h3
      show (bcLoop d p l (i + 1) (bcIter d p i ⟨s1, e1, at1, sh1⟩)).sent
            = (bcLoop d q l (i + 1) (bcIter d q i ⟨s1, e1, at1, sh2⟩)).sent ∧ _
      refine ih (i + 1) _ _ ?_ ?_ ?_ <;>
        · unfold bcIter
          by_cases hd : d i
          · by_cases hs : (s1 + 1) % 10 = 0 <;> simp [hd, hs]
          · simp [hd]

/-- C1: the broadcast dispatcher does NOT guard `total == 0`.  With an
empty recipient snapshot the loop ends with `sent = 0` and `errors = 0`,
but the final-report expression divides `sent_count` by `len(all_users)`,
raising `ZeroDivisionError` (`none`) instead of producing the claimed
trivial `total=0, sent=0, errors=0` report. -/
theorem broadcast_empty_snapshot_raises :
    ∀ deliver progFail : Nat → Bool,
      confirm_broadcast_send deliver progFail [] = none ∧
      (bcLoop deliver progFail [] 0 bcAcc0).sent = 0 ∧
      (bcLoop deliver progFail [] 0 bcAcc0).errors = 0 := by
  intro d p
  exact ⟨rfl, rfl, rfl⟩

/-- C4: over any delivery-failure pattern the loop visits each snapshot
recipient exactly once and isolates failures: the counters satisfy
`sent + errors = len(recipients)` and `sent ≤ len(recipients)`, and for a
non-empty snapshot the final report carries exactly these counters.  (For
the empty snapshot the report computation raises instead — the C1 bug.) -/
theorem broadcast_counts (deliver progFail : Nat → Bool)
    (recipients : List Int) :
    (bcLoop deliver progFail recipients 0 bcAcc0).sent
        + (bcLoop deliver progFail recipients 0 bcAcc0).errors
      = recipients.length ∧
    (bcLoop deliver progFail recipients 0 bcAcc0).sent ≤ recipients.length ∧
    (recipients ≠ [] →
      confirm_broadcast_send deliver progFail recipients
        = some ⟨recipients.length,
                (bcLoop deliver progFail recipients 0 bcAcc0).sent,
                (bcLoop deliver progFail recipients 0 bcAcc0).errors⟩) := by
  refine ⟨?_, ?_, ?_⟩
  · have h := bcLoop_sent_errors deliver progFail recipients 0 bcAcc0
    simpa [bcAcc0] using h
  · have h := bcLoop_sent_le deliver progFail recipients 0 bcAcc0
    simpa [bcAcc0] using h
  · intro hne
    unfold confirm_broadcast_send
    simp [List.length_eq_zero, hne]

/-- Witness for C4 at a concrete three-recipient snapshot in which the
second delivery fails. -/
theorem broadcast_counts_witness :
    ([10, 20, 30] : List Int) ≠ [] ∧
    confirm_broadcast_send dEx pFalse [10, 20, 30]
      = some ⟨3, (bcLoop dEx pFalse [10, 20, 30] 0 bcAcc0).sent,
                 (bcLoop dEx pFalse [10, 20, 30] 0 bcAcc0).errors⟩ ∧
    (bcLoop dEx pFalse [10, 20, 30] 0 bcAcc0).sent = 2 ∧
    (bcLoop dEx pFalse [10, 20, 30] 0 bcAcc0).errors = 1 := by
  refine ⟨by decide, (broadcast_counts dEx pFalse [10, 20, 30]).2.2 (by decide),
    by decide, by decide⟩

/-- C5 counterexample: ten recipients that all fail delivery are ten
processed recipients, yet the loop attempts no progress update at all —
the cadence counts successes (`sent_count % 10`), not processed
recipients. -/
theorem progress_cadence_counterexample :
    (bcLoop pFalse pFalse (List.replicate 10 (0 : Int)) 0 bcAcc0).errors = 10 ∧
    (bcLoop pFalse pFalse (List.replicate 10 (0 : Int)) 0
        bcAcc0).progressAttempted = [] := by
  exact ⟨by decide, by decide⟩

/-- C5 amended: a progress update is attempted exactly when a delivery
succeeds and brings the success count to a multiple of 10 (failures do not
advance the cadence), and a failing progress callback is swallowed: the
sent/error counters and the attempt positions are identical under any two
progress-failure patterns. -/
theorem progress_cadence (deliver p1 p2 : Nat → Bool)
    (recipients : List Int) :
    (bcLoop deliver p1 recipients 0 bcAcc0).progressAttempted
      = attemptsSpec deliver 0 0 recipients.length ∧
    (bcLoop deliver p1 recipients 0 bcAcc0).sent
      = (bcLoop deliver p2 recipients 0 bcAcc0).sent ∧
    (bcLoop deliver p1 recipients 0 bcAcc0).errors
      = (bcLoop deliver p2 recipients 0 bcAcc0).errors := by
  refine ⟨?_, ?_, ?_⟩
  · have h := bcLoop_attempted deliver p1 recipients 0 bcAcc0
    simpa [bcAcc0] using h
  · exact (bcLoop_indep deliver p1 p2 recipients 0 bcAcc0 bcAcc0 rfl rfl rfl).1
  · exact (bcLoop_indep deliver p1 p2 recipients 0 bcAcc0 bcAcc0 rfl rfl rfl).2.1

/-! ## RoleRegistry theorems -/

/-- C3 counterexample: from the initial configuration, `addApprover(5)`
followed by `addAdmin(5)` reaches a state in which identity 5 is both an
administrator and an additional-approver entry — `add_admin` never
consults the approver set, so the claimed admin/approver disjointness is
not an invariant of the reachable states. -/
theorem approver_then_admin_breaks_disjointness :
    Reachable cfg0 sBad ∧ is_admin cfg0 sBad 5 = true ∧
    (5 : Int) ∈ sBad.approvers := by
  refine ⟨?_, by decide, by decide⟩
  exact Reachable.addAdmin _ 5 (Reachable.addApprover _ 5 Reachable.init)

/-- C3 amended: in every reachable state `additionalAdmins` excludes the
primary admin and `additionalApprovers` excludes the primary approver, and
`addApprover(id)` refuses (no mutation) whenever `isAdmin(id)` currently
holds; but an identity already in the approver set may later be added as
an admin, so admin/approver disjointness itself is not invariant. -/
theorem role_registry_invariant (cfg : Config) (s : Roles)
    (h : Reachable cfg s) :
    cfg.adminId ∉ s.additionalAdmins ∧ cfg.helperId ∉ s.approvers ∧
    ∀ uid, is_admin cfg s uid = true → add_approver cfg s uid = (false, s) := by
  obtain ⟨h1, h2⟩ := reachable_primaries_not_in_sets cfg s h
  refine ⟨h1, h2, fun uid hadm => ?_⟩
  unfold add_approver
  rw [if_neg]
  rintro ⟨-, -, hfalse⟩
  rw [hadm] at hfalse
  cases hfalse

/-- Witness for the amended C3 at the initial state: the primary admin
(id 1) is rejected by `addApprover` and is not an additional admin. -/
theorem role_registry_invariant_witness :
    add_approver cfg0 roles0 1 = (false, roles0) ∧
    cfg0.adminId ∉ roles0.additionalAdmins := by
  have h := role_registry_invariant cfg0 roles0 Reachable.init
  exact ⟨h.2.2 1 (by decide), h.1⟩

/-- C6: in every reachable state removing the primary admin fails (the
primary is never in `ADDITIONAL_ADMINS`, so the membership test fails),
and any failed `add_admin` / `remove_admin` call leaves the admin set —
indeed the whole role state — unchanged. -/
theorem remove_primary_admin_always_fails (cfg : Config) (s : Roles)
    (h : Reachable cfg s) :
    remove_admin s cfg.adminId = (false, s) ∧
    (∀ uid, (add_admin cfg s uid).1 = false → (add_admin cfg s uid).2 = s) ∧
    (∀ uid, (remove_admin s uid).1 = false → (remove_admin s uid).2 = s) := by
  refine ⟨?_, fun uid => ?_, fun uid => ?_⟩
  · have h1 := (reachable_primaries_not_in_sets cfg s h).1
    unfold remove_admin
    rw [if_neg h1]
  · unfold add_admin
    split
    · intro hfalse; cases hfalse
    · intro _; rfl
  · unfold remove_admin
    split
    · intro hfalse; cases hfalse
    · intro _; rfl

/-- Witness for C6 at the initial state. -/
theorem remove_primary_admin_always_fails_witness :
    remove_admin roles0 cfg0.adminId = (false, roles0) ∧
    (add_admin cfg0 roles0 1).2 = roles0 := by
  have h := remove_primary_admin_always_fails cfg0 roles0 Reachable.init
  exact ⟨h.1, h.2.1 1 (by decide)⟩

/-! ## AuthorizationGate theorems -/

/-- C2 counterexample: an unauthorized probe at the add-approver id step
is answered with a deny signal, but the handler then calls
`state.clear()` — the session is NOT left unchanged. -/
theorem auth_denial_mutates_session :
    (process_new_approver_id w0 sApproverId 99 "55").outcome = .denied ∧
    (process_new_approver_id w0 sApproverId 99 "55").session ≠ sApproverId := by
  exact ⟨by decide, by decide⟩

/-- C2 amended: a session-advancing input whose sender fails the required
role check is answered with a deny signal and no raised error, and no
field is accumulated and no commit runs — but instead of leaving the
session untouched the gate clears it (step and fields reset). -/
theorem auth_denial_clears_session (w : World) (s : Session) (sender : Int)
    (text : String) :
    (is_admin w.cfg w.roles sender = false →
      process_new_approver_id w s sender text = ⟨clearedSession, w, .denied⟩) ∧
    (sender ≠ w.cfg.adminId →
      process_new_admin_id w s sender text = ⟨clearedSession, w, .denied⟩) := by
  constructor
  · intro h
    unfold process_new_approver_id
    rw [if_pos h]
  · intro h
    unfold process_new_admin_id
    rw [if_pos h]

/-- Witness for the amended C2: a roleless sender (id 99) probing the two
gated id steps. -/
theorem auth_denial_clears_session_witness :
    process_new_approver_id w0 sApproverId 99 "55"
      = ⟨clearedSession, w0, .denied⟩ ∧
    process_new_admin_id w0 sApproverId 99 "55"
      = ⟨clearedSession, w0, .denied⟩ := by
  have h := auth_denial_clears_session w0 sApproverId 99 "55"
  exact ⟨h.1 (by decide), h.2 (by decide)⟩

/-! ## Cancel action -/

/-- C10: the explicit cancel action clears the operator's session whatever
flow and step it was at, performs no commit (the world is untouched), and
does so for every sender — the handler has no role check at all. -/
theorem cancel_clears_session_without_role_check
    (w : World) (s : Session) (sender : Int) :
    (cancel_admin_action_handler w s sender).session = clearedSession ∧
    (cancel_admin_action_handler w s sender).world = w ∧
    (cancel_admin_action_handler w s sender).outcome = .cancelled := by
  exact ⟨rfl, rfl, rfl⟩

/-! ## Change-access-code flow -/

/-- C7: for an admin sender, the new-code step accepts exactly the inputs
whose stripped text has at least 4 characters and differs from the stored
code (storing it and moving to the confirmation step); the confirmation
step leaves the session and the stored code untouched on any mismatch and
on an exact match commits the new code and clears the session. -/
theorem password_change_flow (w : World) (sender : Int)
    (hadm : is_admin w.cfg w.roles sender = true) :
    (∀ s text, ((process_new_password w s sender text).outcome = .advanced ↔
       (4 ≤ (pyStrip text).length ∧ pyStrip text ≠ w.password))) ∧
    (∀ s text, 4 ≤ (pyStrip text).length → pyStrip text ≠ w.password →
       process_new_password w s sender text =
         ⟨⟨some .waiting_for_password_confirmation,
           { s.data with new_password := some (pyStrip text) }⟩, w, .advanced⟩) ∧
    (∀ s np text, s.data.new_password = some np → pyStrip text ≠ np →
       process_password_confirmation w s sender text = ⟨s, w, .rejected⟩) ∧
    (∀ s np text, s.data.new_password = some np → pyStrip text = np →
       process_password_confirmation w s sender text =
         ⟨clearedSession, { w with password := np }, .committed true⟩) := by
  refine ⟨fun s text => ?_, fun s text h4 hne => ?_,
    fun s np text hnp hne => ?_, fun s np text hnp heq => ?_⟩
  · simp only [process_new_password, hadm]
    by_cases h1 : pyStrip text = "" ∨ (pyStrip text).length < 4
    · have hlt : (pyStrip text).length < 4 := by
        rcases h1 with h | h
        · rw [h]; decide
        · exact h
      simp only [h1, if_true]
      simp only [if_neg (by decide : ¬ (true = false))]
      constructor
      · intro hfalse; cases hfalse
      · rintro ⟨h4, -⟩; omega
    · by_cases h2 : pyStrip text = w.password
      · simp [h1, h2]
      · simp [h1, h2]
        push_neg at h1
        omega
  · have h1 : ¬(pyStrip text = "" ∨ (pyStrip text).length < 4) := by
      push_neg
      refine ⟨fun h => ?_, by omega⟩
      rw [h] at h4
      simp at h4
    simp [process_new_password, hadm, h1, hne]
  · simp [process_password_confirmation, hadm, hnp, hne]
  · simp [process_password_confirmation, hadm, hnp, heq]

/-- Witness for C7: the spec scenario — stored code `"1234"`, new code
`"2025"` accepted, confirmation `"2024"` rejected with nothing changed,
confirmation `"2025"` commits the new code and clears the session. -/
theorem password_change_flow_witness :
    (process_new_password w0 sNewPassword 1 "2025").outcome = .advanced ∧
    process_password_confirmation w0 sPassConfirm 1 "2024"
      = ⟨sPassConfirm, w0, .rejected⟩ ∧
    process_password_confirmation w0 sPassConfirm 1 "2025"
      = ⟨clearedSession, { w0 with password := "2025" }, .committed true⟩ := by
  have h := password_change_flow w0 1 (by decide)
  refine ⟨(h.1 sNewPassword "2025").mpr ⟨by decide, by decide⟩, ?_, ?_⟩
  · exact h.2.2.1 sPassConfirm "2025" "2024" rfl (by decide)
  · exact h.2.2.2 sPassConfirm "2025" "2025" rfl rfl

/-! ## Work-group locator step -/

theorem linkGroupId_neg (d : List Char) : linkGroupId d < 0 := by
  have h10 : 1 ≤ 10 ^ d.length := Nat.one_le_pow _ _ (by norm_num)
  unfold linkGroupId
  omega

/-- Inversion of the regex cascade: both channel-link shapes always carry
a `-100`-prefixed, hence negative, group id. -/
theorem parseGroupLink_link_neg (link : String) :
    (∀ g t, parseGroupLink link = .topicLink g t → g < 0) ∧
    (∀ g, parseGroupLink link = .plainLink g → g < 0) := by
  unfold parseGroupLink
  constructor
  · intro g t
    rcases hm : matchChannelTopic link.toList with - | ⟨d1, d2⟩
    · simp only [hm]
      rcases hm2 : matchChannelNoTopic link.toList with - | d1
      · simp only [hm2]
        rcases hm3 : matchNumericId link.toList with - | v
        · simp only [hm3]; intro h; cases h
        · simp only [hm3]; intro h; cases h
      · simp only [hm2]; intro h; cases h
    · simp only [hm]
      intro h
      injection h with h1 h2
      rw [← h1]
      exact linkGroupId_neg d1
  · intro g
    rcases hm : matchChannelTopic link.toList with - | ⟨d1, d2⟩
    · simp only [hm]
      rcases hm2 : matchChannelNoTopic link.toList with - | d1
      · simp only [hm2]
        rcases hm3 : matchNumericId link.toList with - | v
        · simp only [hm3]; intro h; cases h
        · simp only [hm3]; intro h; cases h
      · simp only [hm2]
        intro h
        injection h with h1
        rw [← h1]
        exact linkGroupId_neg d1
    · simp only [hm]; intro h; cases h

/-- C8 counterexample: the bare numeric input `"123"` matches the numeric
locator pattern and is accepted — the session advances with group id
`123`, which is not negative, refuting "extracts a negative numeric group
id" for every accepted input. -/
theorem group_link_accepts_positive_id :
    (process_group_link w0 sGroupLink 1 "123").outcome = .advanced ∧
    (process_group_link w0 sGroupLink 1 "123").session.data.temp_group_id
      = some 123 ∧
    ¬((123 : Int) < 0) := by
  exact ⟨by decide, by decide, by decide⟩

/-- C8 amended: for an admin sender the locator step rejects (leaving the
session and world untouched) exactly the inputs matching none of the three
patterns; a `t.me/c` link (with or without sub-topic) is accepted with a
negative `-100`-prefixed group id; a bare numeric id is accepted with its
literal — not necessarily negative — value, except that the value 0 is
silently ignored (no advance and no rejection). -/
theorem group_link_step (w : World) (s : Session) (sender : Int)
    (text : String) (hadm : is_admin w.cfg w.roles sender = true) :
    (parseGroupLink (pyStrip text) = .noMatch →
      process_group_link w s sender text = ⟨s, w, .rejected⟩) ∧
    (∀ g t, parseGroupLink (pyStrip text) = .topicLink g t →
      g < 0 ∧ process_group_link w s sender text =
        ⟨⟨some .waiting_for_group_name,
          { s.data with temp_group_id := some g, temp_topic_id := some t }⟩,
         w, .advanced⟩) ∧
    (∀ g, parseGroupLink (pyStrip text) = .plainLink g →
      g < 0 ∧ process_group_link w s sender text =
        ⟨⟨some .waiting_for_group_name,
          { s.data with temp_group_id := some g, temp_topic_id := none }⟩,
         w, .advanced⟩) ∧
    (∀ v, parseGroupLink (pyStrip text) = .numericId v →
      (v ≠ 0 → process_group_link w s sender text =
        ⟨⟨some .waiting_for_group_name,
          { s.data with temp_group_id := some v, temp_topic_id := none }⟩,
         w, .advanced⟩) ∧
      (v = 0 → process_group_link w s sender text = ⟨s, w, .ignored⟩)) := by
  refine ⟨fun hp => ?_, fun g t hp => ?_, fun g hp => ?_, fun v hp => ?_⟩
  · simp [process_group_link, hadm, hp]
  · have hg : g < 0 := (parseGroupLink_link_neg (pyStrip text)).1 g t hp
    refine ⟨hg, ?_⟩
    simp [process_group_link, hadm, hp]
    intro hzero
    omega
  · have hg : g < 0 := (parseGroupLink_link_neg (pyStrip text)).2 g hp
    refine ⟨hg, ?_⟩
    simp [process_group_link, hadm, hp]
    intro hzero
    omega
  · constructor
    · intro hv
      simp [process_group_link, hadm, hp, hv]
    · intro hv
      simp [process_group_link, hadm, hp, hv]

/-- Witness for the amended C8: a topic link is accepted with the negative
group id `-100123` and sub-topic `45`. -/
theorem group_link_step_witness :
    (-100123 : Int) < 0 ∧
    process_group_link w0 sGroupLink 1 "https://t.me/c/123/45" =
      ⟨⟨some .waiting_for_group_name,
        { sGroupLink.data with temp_group_id := some (-100123),
                               temp_topic_id := some 45 }⟩, w0, .advanced⟩ := by
  have h := group_link_step w0 sGroupLink 1 "https://t.me/c/123/45" (by decide)
  have h2 := h.2.1 (-100123) 45 (by decide)
  exact ⟨h2.1, h2.2⟩

/-! ## Validator-rejection frame lemmas: every rejection path answers the
operator and returns before any session or store mutation. -/

theorem process_new_approver_id_frame (w : World) (s : Session)
    (sender : Int) (text : String) :
    (process_new_approver_id w s sender text).outcome = .rejected →
    (process_new_approver_id w s sender text).session = s ∧
    (process_new_approver_id w s sender text).world = w := by
  unfold process_new_approver_id
  repeat' split
  all_goals intro h
  all_goals simp_all

theorem process_approver_name_frame (w : World) (s : Session)
    (sender : Int) (text : String) :
    (process_approver_name w s sender text).outcome = .rejected →
    (process_approver_name w s sender text).session = s ∧
    (process_approver_name w s sender text).world = w := by
  unfold process_approver_name
  dsimp only
  repeat' split
  all_goals intro h
  all_goals simp_all

theorem process_approver_delete_frame (w : World) (s : Session)
    (sender : Int) (text : String) :
    (process_approver_delete w s sender text).outcome = .rejected →
    (process_approver_delete w s sender text).session = s ∧
    (process_approver_delete w s sender text).world = w := by
  unfold process_approver_delete
  repeat' split
  all_goals intro h
  all_goals simp_all

theorem process_group_link_frame (w : World) (s : Session)
    (sender : Int) (text : String) :
    (process_group_link w s sender text).outcome = .rejected →
    (process_group_link w s sender text).session = s ∧
    (process_group_link w s sender text).world = w := by
  unfold process_group_link
  dsimp only
  repeat' split
  all_goals intro h
  all_goals simp_all

theorem process_group_name_frame (w : World) (s : Session)
    (sender : Int) (text : String) :
    (process_group_name w s sender text).outcome = .rejected →
    (process_group_name w s sender text).session = s ∧
    (process_group_name w s sender text).world = w := by
  unfold process_group_name
  dsimp only
  repeat' split
  all_goals intro h
  all_goals simp_all

theorem process_group_delete_frame (w : World) (s : Session)
    (sender : Int) (text : String) :
    (process_group_delete w s sender text).outcome = .rejected →
    (process_group_delete w s sender text).session = s ∧
    (process_group_delete w s sender text).world = w := by
  unfold process_group_delete
  repeat' split
  all_goals intro h
  all_goals simp_all

theorem process_sheet_name_frame (w : World) (s : Session)
    (sender : Int) (text : String) :
    (process_sheet_name w s sender text).outcome = .rejected →
    (process_sheet_name w s sender text).session = s ∧
    (process_sheet_name w s sender text).world = w := by
  unfold process_sheet_name
  dsimp only
  repeat' split
  all_goals intro h
  all_goals simp_all

theorem process_google_sheet_url_frame (w : World) (s : Session)
    (sender : Int) (text : String) :
    (process_google_sheet_url w s sender text).outcome = .rejected →
    (process_google_sheet_url w s sender text).session = s ∧
    (process_google_sheet_url w s sender text).world = w := by
  unfold process_google_sheet_url
  dsimp only
  repeat' split
  all_goals intro h
  all_goals simp_all

theorem process_google_sheet_worksheet_name_frame (probe : GsProbe)
    (w : World) (s : Session) (sender : Int) (text : String) :
    (process_google_sheet_worksheet_name probe w s sender text).outcome
        = .rejected →
    (process_google_sheet_worksheet_name probe w s sender text).session = s ∧
    (process_google_sheet_worksheet_name probe w s sender text).world = w := by
  unfold process_google_sheet_worksheet_name
  dsimp only
  repeat' split
  all_goals intro h
  all_goals simp_all

theorem process_new_admin_id_frame (w : World) (s : Session)
    (sender : Int) (text : String) :
    (process_new_admin_id w s sender text).outcome = .rejected →
    (process_new_admin_id w s sender text).session = s ∧
    (process_new_admin_id w s sender text).world = w := by
  unfold process_new_admin_id
  repeat' split
  all_goals intro h
  all_goals simp_all

theorem process_admin_name_frame (w : World) (s : Session)
    (sender : Int) (text : String) :
    (process_admin_name w s sender text).outcome = .rejected →
    (process_admin_name w s sender text).session = s ∧
    (process_admin_name w s sender text).world = w := by
  unfold process_admin_name
  dsimp only
  repeat' split
  all_goals intro h
  all_goals simp_all

theorem process_admin_delete_frame (w : World) (s : Session)
    (sender : Int) (text : String) :
    (process_admin_delete w s sender text).outcome = .rejected →
    (process_admin_delete w s sender text).session = s ∧
    (process_admin_delete w s sender text).world = w := by
  unfold process_admin_delete
  repeat' split
  all_goals intro h
  all_goals simp_all

theorem process_new_password_frame (w : World) (s : Session)
    (sender : Int) (text : String) :
    (process_new_password w s sender text).outcome = .rejected →
    (process_new_password w s sender text).session = s ∧
    (process_new_password w s sender text).world = w := by
  unfold process_new_password
  dsimp only
  repeat' split
  all_goals intro h
  all_goals simp_all

theorem process_password_confirmation_frame (w : World) (s : Session)
    (sender : Int) (text : String) :
    (process_password_confirmation w s sender text).outcome = .rejected →
    (process_password_confirmation w s sender text).session = s ∧
    (process_password_confirmation w s sender text).world = w := by
  unfold process_password_confirmation
  dsimp only
  repeat' split
  all_goals intro h
  all_goals simp_all

theorem process_broadcast_message_frame (w : World) (s : Session)
    (sender : Int) (text : String) :
    (process_broadcast_message w s sender text).outcome = .rejected →
    (process_broadcast_message w s sender text).session = s ∧
    (process_broadcast_message w s sender text).world = w := by
  unfold process_broadcast_message
  dsimp only
  repeat' split
  all_goals intro h
  all_goals simp_all

/-- Router-level frame property: a rejected input leaves the session and
the world exactly as they were, at whatever step the session sits. -/
theorem dispatch_rejected_frame (probe : GsProbe) (w : World) (s : Session)
    (sender : Int) (text : String) :
    (dispatchMessage probe w s sender text).outcome = .rejected →
    (dispatchMessage probe w s sender text).session = s ∧
    (dispatchMessage probe w s sender text).world = w := by
  rcases hstep : s.step with - | st
  · simp only [dispatchMessage, hstep]
    intro h; cases h
  · cases st <;> simp only [dispatchMessage, hstep] <;>
      first
      | exact process_group_link_frame w s sender text
      | exact process_group_name_frame w s sender text
      | exact process_group_delete_frame w s sender text
      | exact process_sheet_name_frame w s sender text
      | exact process_google_sheet_url_frame w s sender text
      | exact process_google_sheet_worksheet_name_frame probe w s sender text
      | exact process_new_password_frame w s sender text
      | exact process_password_confirmation_frame w s sender text
      | exact process_new_admin_id_frame w s sender text
      | exact process_admin_name_frame w s sender text
      | exact process_admin_delete_frame w s sender text
      | exact process_new_approver_id_frame w s sender text
      | exact process_approver_name_frame w s sender text
      | exact process_approver_delete_frame w s sender text
      | exact process_broadcast_message_frame w s sender text
      | (intro h; cases h)

/-- C9: across every flow and step, an input rejected by the step's
validator leaves the operator's session (current step and accumulated
fields) and the whole store untouched, and any number of consecutive
rejected re-submissions — there is no retry limit — still leaves them
untouched. -/
theorem rejected_inputs_leave_session_unchanged (probe : GsProbe)
    (w : World) (s : Session) (sender : Int) :
    (∀ text, (dispatchMessage probe w s sender text).outcome = .rejected →
      (dispatchMessage probe w s sender text).session = s ∧
      (dispatchMessage probe w s sender text).world = w) ∧
    (∀ texts : List String,
      (∀ t ∈ texts, (dispatchMessage probe w s sender t).outcome = .rejected) →
      applyInputs probe sender texts w s = (w, s)) := by
  refine ⟨fun text => dispatch_rejected_frame probe w s sender text, ?_⟩
  intro texts
  induction texts with
  | nil => intro _; rfl
  | cons t ts ih =>
      intro hall
      have hrej := hall t (List.mem_cons_self t ts)
      have hfr := dispatch_rejected_frame probe w s sender t hrej
      show applyInputs probe sender ts
            (dispatchMessage probe w s sender t).world
            (dispatchMessage probe w s sender t).session = (w, s)
      rw [hfr.1, hfr.2]
      exact ih (fun u hu => hall u (List.mem_cons_of_mem t hu))

/-- Witness for C9: an admin re-submitting the too-short access code
`"ab"` twice at the new-code step changes nothing. -/
theorem rejected_inputs_leave_session_unchanged_witness :
    (dispatchMessage .ok w0 sNewPassword 1 "ab").outcome = .rejected ∧
    applyInputs .ok 1 ["ab", "ab"] w0 sNewPassword = (w0, sNewPassword) := by
  have h := rejected_inputs_leave_session_unchanged .ok w0 sNewPassword 1
  exact ⟨by decide, h.2 ["ab", "ab"] (by decide)⟩

end OtchotBot
